import Mathlib

/-!
# Android Workbench — verification of the repository against its specification

Shallow embedding of the three near-identical Python scripts
(`android-workbench-v1.2.py`, `android_workbench.py`, `android_workbench_ai.py`).
Each Python helper is translated to an executable Lean function; side effects
(child-process invocations, terminal prints, file writes) become explicit
`Event` values in a trace; operator replies to `input()` prompts and the
outputs of external commands are parameters of the trace functions.

Python string primitives (`str.strip`, `str.split`, `str.splitlines`,
`str.lower`, `str.isdigit`, `str.ljust`, `int(...)`, `"sep".join`) are
modelled over ASCII text: Unicode-specific behaviour (non-ASCII digit
characters, exotic line separators such as `\x85`, underscore separators
accepted by `int`) is outside the model, and all concrete inputs considered
here are plain ASCII.
-/

/-! ## Python string primitives -/

/-- The six characters Python `str.strip`/`str.split` treat as whitespace
(ASCII fragment). -/
def isPySpace (c : Char) : Bool :=
  c = ' ' ∨ c = '\t' ∨ c = '\n' ∨ c = '\r' ∨ c = '\x0b' ∨ c = '\x0c'

/-- Python `str.strip()` on the character list: drop leading and trailing
whitespace. -/
def pyStripChars (cs : List Char) : List Char :=
  ((cs.dropWhile isPySpace).reverse.dropWhile isPySpace).reverse

/-- Python `s.strip()`. -/
def pyStrip (s : String) : String :=
  String.mk (pyStripChars s.toList)

/-- Python `s.lower()` (ASCII). -/
def pyLower (s : String) : String :=
  String.mk (s.toList.map Char.toLower)

/-- Python `s.split()` with no separator: split on whitespace runs and
drop empty tokens. -/
def pyWords (s : String) : List String :=
  ((s.toList.splitOnP isPySpace).filter (fun w => w ≠ [])).map String.mk

/-- Drop a trailing empty group: Python `str.splitlines` produces no entry
for a final newline. The default argument of `getLastD` is only consulted
for the empty list, where nothing is dropped. -/
def dropTrailingBlank (gs : List String) : List String :=
  if gs.getLastD "x" = "" then gs.dropLast else gs

/-- Python `s.splitlines()` (with `\n` as the only line separator). -/
def pySplitlines (s : String) : List String :=
  dropTrailingBlank ((s.toList.splitOn '\n').map String.mk)

/-- Python `"sep".join(xs)`. -/
def joinWith (sep : String) : List String → String
  | [] => ""
  | [x] => x
  | x :: y :: xs => x ++ sep ++ joinWith sep (y :: xs)

/-- The text fed to the device-list parser in the claims: a header line
followed by further lines, joined by newlines (same as `joinWith "\n"`,
spelt out for the statements below). -/
def joinLines : List String → String := joinWith "\n"

/-- Python `s.ljust(w, fill)`: pad on the right up to width `w`
(no-op when `s` is already at least that wide). -/
def pyLjust (s : String) (w : Nat) (fill : Char) : String :=
  s ++ String.mk (List.replicate (w - s.length) fill)

/-- Decides membership in `'0'..'9'`. -/
def isAsciiDigit (c : Char) : Bool := '0' ≤ c ∧ c ≤ '9'

/-- Numeric value of an ASCII digit string. -/
def digitsVal (cs : List Char) : Nat :=
  cs.foldl (fun n c => 10 * n + (c.toNat - '0'.toNat)) 0

/-- Python `s.isdigit()` (ASCII fragment): nonempty and all digits. -/
def pyIsDigit (s : String) : Bool :=
  s.toList ≠ [] ∧ s.toList.all isAsciiDigit

/-- Python `int(s)` as a partial function: optional sign followed by one
or more ASCII digits, with surrounding whitespace tolerated; `none` models
`ValueError`. (Underscore digit separators are not modelled.) -/
def pyParseInt (s : String) : Option Int :=
  match pyStripChars s.toList with
  | [] => none
  | '+' :: ds => if ds ≠ [] ∧ ds.all isAsciiDigit then some (digitsVal ds) else none
  | '-' :: ds => if ds ≠ [] ∧ ds.all isAsciiDigit then some (-(digitsVal ds : Int)) else none
  | ds => if ds.all isAsciiDigit then some (digitsVal ds) else none

/-- Naive "does `l` start with `p`" on character lists. -/
def startsWithList : List Char → List Char → Bool
  | _, [] => true
  | [], _ :: _ => false
  | c :: cs, d :: ds => c = d && startsWithList cs ds

/-- Naive substring search on character lists. -/
def listContains : List Char → List Char → Bool
  | l, [] => startsWithList l []
  | [], _ :: _ => false
  | c :: cs, p => startsWithList (c :: cs) p || listContains cs p

/-- Python `pat in s` (substring test). -/
def strContains (s pat : String) : Bool :=
  listContains s.toList pat.toList

/-! ## Data model (`src/android_workbench_ai.py` unless noted) -/

/-- ANSI constants, as in the source. -/
def RESET : String := "\x1b[0m"

def BOLD : String := "\x1b[1m"

def DIM : String := "\x1b[2m"

def NEON_PINK : String := "\x1b[38;5;213m"

def NEON_CYAN : String := "\x1b[38;5;51m"

def NEON_GREEN : String := "\x1b[38;5;46m"

def NEON_PURPLE : String := "\x1b[38;5;141m"

def NEON_YELLOW : String := "\x1b[38;5;226m"

def NEON_RED : String := "\x1b[38;5;196m"

def GRAY : String := "\x1b[38;5;245m"

/-- Output directories (home-relative paths kept as literals). -/
def REPORT_DIR : String := "~/scripts/android-reports"

def LOG_DIR : String := "~/scripts/android_logs"

def MEDIA_DIR : String := "~/scripts/android_media"

/-- The session context (`@dataclass Ctx` in all three files). -/
structure Ctx where
  serial : Option String := none
  dry_run : Bool := false
  verbose : Bool := true
  deriving Repr, DecidableEq

/-- Source `adb_base`: the adb argument prefix, inserting the `-s serial` pair
when a device is bound. -/
def adb_base (ctx : Ctx) : List String :=
  match ctx.serial with
  | some s => ["adb", "-s", s]
  | none => ["adb"]

/-- Source `fastboot_base`. -/
def fastboot_base (ctx : Ctx) : List String :=
  match ctx.serial with
  | some s => ["fastboot", "-s", s]
  | none => ["fastboot"]

/-- Observable side effects of a handler, in program order.
`run` is a capture-mode child-process invocation (`run`/`run_capture` in the
source, with its timeout in seconds), `stream` a streaming invocation
(`run_stream`), `print` a line shown to the operator (`input(prompt)`
prompts are recorded as prints; the reply is a parameter), `write` a file
write. -/
inductive Event where
  | run (cmd : List String) (timeout : Nat)
  | stream (cmd : List String)
  | print (s : String)
  | write (path : String) (content : String)
  deriving Repr, DecidableEq

/-- Does the event invoke a child process or write a file? -/
def Event.isEffect : Event → Bool
  | .run _ _ => true
  | .stream _ => true
  | .write _ _ => true
  | .print _ => false

/-- Is the event a capture-mode child-process invocation? -/
def Event.isRun : Event → Bool
  | .run _ _ => true
  | _ => false

/-- Is the event a file write? -/
def Event.isWrite : Event → Bool
  | .write _ _ => true
  | _ => false

/-- The `(path, content)` of a write event. -/
def Event.writeOf : Event → Option (String × String)
  | .write p c => some (p, c)
  | _ => none

/-- Ambient behaviour of everything outside the program: stdout/stderr of
each child-process invocation (the exit status is taken to be zero unless an
exception is injected separately), the wall clock, the filesystem query of
`Path.exists`, `Path.expanduser`, and the outcome of `re.compile` /
`rx.search` on the one operator-supplied pattern of the regex sub-mode. -/
structure Env where
  runOut : List String → String
  runErr : List String → String
  ts : String
  nowIso : String
  pathExists : String → Bool
  expandUser : String → String
  regexValid : Bool
  regexErrMsg : String
  rxMatch : String → Bool

/-- A fixed environment for concrete evaluations. -/
def env0 : Env where
  runOut := fun _ => ""
  runErr := fun _ => ""
  ts := "20250101-000000"
  nowIso := "2025-01-01T00:00:00"
  pathExists := fun _ => true
  expandUser := fun p => p
  regexValid := true
  regexErrMsg := ""
  rxMatch := fun _ => false

/-! ## Menu renderer (`box`, identical in all three files) -/

/-- Source `width = max([len(s) for s in lines] + [len(title)]) if (lines or title) else 0`
(a fold computing the maximum of the same nonempty list). -/
def boxWidth (lines : List String) (title : String) : Nat :=
  if lines = [] ∧ title = "" then 0
  else ((lines.map String.length) ++ [title.length]).foldr Nat.max 0

/-- The top border: dashes, with the title left-justified into them when
present. -/
def boxTop (lines : List String) (title : String) : String :=
  let width := boxWidth lines title
  if title = "" then "+" ++ String.mk (List.replicate (width + 2) '-') ++ "+"
  else "+" ++ pyLjust (" " ++ title) (width + 2) '-' ++ "+"

/-- The `out` list of `box` before joining: top border, one fixed-width row
per label, bottom border. -/
def boxRows (lines : List String) (title : String) : List String :=
  boxTop lines title
    :: (lines.map (fun s => "| " ++ pyLjust s (boxWidth lines title) ' ' ++ " |")
        ++ ["+" ++ String.mk (List.replicate (boxWidth lines title + 2) '-') ++ "+"])

/-- Source `box(lines, title=...)`. -/
def box (lines : List String) (title : String := "") : String :=
  joinWith "\n" (boxRows lines title)

/-! ## Device selector -/

/-- Source `parse_adb_devices` (`android_workbench_ai.py` lines 125-132; the
v1.2 and v0.1 variants differ only in control flow, not behaviour):
strip lines, drop blanks, skip the header, keep the first token of every
line whose second token is `device`. -/
def parse_adb_devices (output : String) : List String :=
  let lines := ((pySplitlines output).map pyStrip).filter (fun ln => ln ≠ "")
  (lines.drop 1).filterMap (fun ln =>
    match pyWords ln with
    | serial :: state :: _ => if state = "device" then some serial else none
    | _ => none)

/-- Stated from the words of the claim: the first whitespace-separated token of
a line whose second whitespace-separated token equals the literal
`device`, if any. The parser is proved to return exactly these tokens. -/
def deviceTokenOf (ln : String) : Option String :=
  match pyWords ln with
  | serial :: state :: _ => if state = "device" then some serial else none
  | _ => none

/-- Source `pick_adb_serial` after `serials = parse_adb_devices(out)`
(`android_workbench_ai.py` lines 138-150): no device yields no selection, a
single device is returned without consulting the operator, and with several
devices the operator reply (read by `input("Pick one: ")`, modelled as the
`operatorInput` parameter) must be a digit string whose value is a 1-based
index into the list. -/
def pick_adb_serial (serials : List String) (operatorInput : String) : Option String :=
  if serials = [] then none
  else if serials.length = 1 then serials.head?
  else
    let choice := pyStrip operatorInput
    if pyIsDigit choice then
      let idx := digitsVal choice.toList
      if 1 ≤ idx ∧ idx ≤ serials.length then serials.get? (idx - 1) else none
    else none

/-! ## Action handlers (`src/android_workbench_ai.py`) -/

/-- The `input(GRAY + "Press Enter..." + RESET)` pause, recorded as the
prompt it prints. -/
def pressEnter : Event := .print (GRAY ++ "Press Enter..." ++ RESET)

/-- Source `print(GRAY + "Dry-run. Would run:" + RESET, " ".join(cmd))` —
Python `print` joins its two arguments with one space. -/
def dryRunMsg (cmd : List String) : Event :=
  .print (GRAY ++ "Dry-run. Would run:" ++ RESET ++ " " ++ joinWith " " cmd)

/-- Source `action_report` (lines 165-192): five property queries and an identity
query, assembled into a labelled text block and written to a timestamped
file under the reports directory. `run` is called with `check=True`; the
trace assumes every invocation succeeds (a failure would abort the handler
with an exception before the write). -/
def action_report (ctx : Ctx) (env : Env) : List Event :=
  match ctx.serial with
  | none => [.print "No ADB serial selected (device must be authorized and in Android)."]
  | some serial =>
    let path := REPORT_DIR ++ "/report-" ++ serial ++ "-" ++ env.ts ++ ".txt"
    let getpropCmd := fun (key : String) => adb_base ctx ++ ["shell", "getprop", key]
    let getprop := fun (key : String) => pyStrip (env.runOut (getpropCmd key))
    let idCmd := adb_base ctx ++ ["shell", "id"]
    let lines : List String :=
      [ "serial: " ++ serial
      , "when: " ++ env.nowIso
      , ""
      , "model: " ++ getprop "ro.product.model"
      , "android: " ++ getprop "ro.build.version.release"
      , "security_patch: " ++ getprop "ro.build.version.security_patch"
      , "fingerprint: " ++ getprop "ro.build.fingerprint"
      , "abi: " ++ getprop "ro.product.cpu.abi"
      , ""
      , "id:"
      , pyStrip (env.runOut idCmd) ]
    [ .run (getpropCmd "ro.product.model") 15
    , .run (getpropCmd "ro.build.version.release") 15
    , .run (getpropCmd "ro.build.version.security_patch") 15
    , .run (getpropCmd "ro.build.fingerprint") 15
    , .run (getpropCmd "ro.product.cpu.abi") 15
    , .run idCmd 10
    , .write path (joinWith "\n" lines ++ "\n")
    , .print ("Wrote: " ++ path) ]

/-- The LOGCAT LAB sub-menu labels (lines 202-212). -/
def logcatMenuLines : List String :=
  [ NEON_CYAN ++ "l1" ++ RESET ++ ") Dump last 200 lines (all buffers)"
  , NEON_CYAN ++ "l2" ++ RESET ++ ") Live follow (all buffers)"
  , NEON_CYAN ++ "l3" ++ RESET ++ ") Crashes only (AndroidRuntime)"
  , NEON_CYAN ++ "l4" ++ RESET ++ ") SELinux denials (avc)"
  , NEON_CYAN ++ "l5" ++ RESET ++ ") Filter by tag"
  , NEON_CYAN ++ "l6" ++ RESET ++ ") Filter by regex (host regex)"
  , NEON_CYAN ++ "l7" ++ RESET ++ ") Save dump to file"
  , NEON_CYAN ++ "l8" ++ RESET ++ ") Clear logcat buffers (confirm)"
  , NEON_CYAN ++ "b" ++ RESET ++ ") Back" ]

/-- The prints preceding the sub-mode dispatch: blank line, boxed menu, and
the `input(NEON_PINK + "> " + RESET)` prompt. -/
def logcatMenuPrints : List Event :=
  [ .print ""
  , .print (box logcatMenuLines (NEON_PINK ++ "LOGCAT LAB" ++ RESET))
  , .print (NEON_PINK ++ "> " ++ RESET) ]

/-- Lines 283-294 of `action_logcat_lab`: the shared tail for the captured
sub-modes. NOTE: in the source this dry-run test happens only after
`out = run(cmd, ...)` has already executed; the caller therefore places the
`run` event before these. -/
def logcatTail (ctx : Ctx) (out_path : Option String) (out : String) (cmd : List String) :
    List Event :=
  if ctx.dry_run then [dryRunMsg cmd, pressEnter]
  else
    match out_path with
    | some p => [.write p out, .print ("Wrote: " ++ p), pressEnter]
    | none => [.print out, pressEnter]

/-- Source `action_logcat_lab` (lines 195-294). `choice`, `tag`, `regex` and
`confirm` are the operator replies to the four `input()` calls (each is only
read by the sub-mode that prompts for it). The `try re.compile` of sub-mode
`l6` is modelled by `env.regexValid`, and `rx.search(ln)` by `env.rxMatch`. -/
def action_logcat_lab (ctx : Ctx) (choice tag regex confirm : String) (env : Env) :
    List Event :=
  match ctx.serial with
  | none => [.print (NEON_RED ++ "No ADB serial selected." ++ RESET), pressEnter]
  | some serial =>
    let c := pyLower (pyStrip choice)
    if c = "b" then logcatMenuPrints
    else if c = "l1" then
      let cmd := adb_base ctx ++ ["logcat", "-b", "all", "-d", "-t", "200", "-v", "time"]
      let out := env.runOut cmd
      logcatMenuPrints ++ [.run cmd 60] ++ logcatTail ctx none out cmd
    else if c = "l2" then
      let cmd := adb_base ctx ++ ["logcat", "-b", "all", "-v", "time"]
      if ctx.dry_run then logcatMenuPrints ++ [dryRunMsg cmd, pressEnter]
      else logcatMenuPrints
        ++ [.print (GRAY ++ "Streaming logcat. Ctrl+C to stop." ++ RESET), .stream cmd]
    else if c = "l3" then
      let cmd := adb_base ctx ++ ["logcat", "-v", "time", "AndroidRuntime:E", "*:S"]
      let out := env.runOut cmd
      logcatMenuPrints ++ [.run cmd 60] ++ logcatTail ctx none out cmd
    else if c = "l4" then
      let cmd := adb_base ctx ++ ["logcat", "-b", "all", "-d", "-v", "time"]
      let out := env.runOut cmd
      let out := joinWith "\n"
        ((pySplitlines out).filter (fun ln => strContains (pyLower ln) "avc:"))
      logcatMenuPrints ++ [.run cmd 60] ++ logcatTail ctx none out cmd
    else if c = "l5" then
      let t := pyStrip tag
      let tagPrompt := Event.print "Tag (e.g. ActivityManager): "
      if t = "" then logcatMenuPrints ++ [tagPrompt]
      else
        let cmd := adb_base ctx ++ ["logcat", "-b", "all", "-d", "-v", "time", t ++ ":V", "*:S"]
        let out := env.runOut cmd
        logcatMenuPrints ++ [tagPrompt, .run cmd 60] ++ logcatTail ctx none out cmd
    else if c = "l6" then
      let regex_s := pyStrip regex
      let rxPrompt := Event.print "Regex: "
      if regex_s = "" then logcatMenuPrints ++ [rxPrompt]
      else
        let cmd := adb_base ctx ++ ["logcat", "-b", "all", "-d", "-v", "time"]
        let out := env.runOut cmd
        if env.regexValid then
          let out := joinWith "\n" ((pySplitlines out).filter env.rxMatch)
          logcatMenuPrints ++ [rxPrompt, .run cmd 60] ++ logcatTail ctx none out cmd
        else
          logcatMenuPrints
            ++ [rxPrompt, .run cmd 60,
                .print (NEON_RED ++ "Bad regex: " ++ env.regexErrMsg ++ RESET), pressEnter]
    else if c = "l7" then
      let out_path := LOG_DIR ++ "/logcat-" ++ serial ++ "-" ++ env.ts ++ ".txt"
      let cmd := adb_base ctx ++ ["logcat", "-b", "all", "-d", "-v", "time"]
      let out := env.runOut cmd
      logcatMenuPrints ++ [.run cmd 60] ++ logcatTail ctx (some out_path) out cmd
    else if c = "l8" then
      let confirmPrompt := Event.print "This clears log buffers. Type YES to continue: "
      if pyStrip confirm ≠ "YES" then logcatMenuPrints ++ [confirmPrompt]
      else
        let cmd := adb_base ctx ++ ["logcat", "-b", "all", "-c"]
        let out := env.runOut cmd
        logcatMenuPrints ++ [confirmPrompt, .run cmd 30] ++ logcatTail ctx none out cmd
    else logcatMenuPrints

/-- Source `require_serial` (lines 301-306), as the events it emits when no device
is bound. -/
def requireSerialFail : List Event :=
  [.print (NEON_RED ++ "No ADB serial selected." ++ RESET), pressEnter]

/-- Source `action_install_apk` (lines 367-390). `apkInput` is the reply to the
path prompt. -/
def action_install_apk (ctx : Ctx) (apkInput : String) (env : Env) : List Event :=
  match ctx.serial with
  | none => requireSerialFail
  | some _ =>
    let apkPrompt := Event.print "Path to APK (e.g. ~/Downloads/app.apk): "
    let apk := pyStrip apkInput
    if apk = "" then [apkPrompt]
    else
      let apk_path := env.expandUser apk
      if env.pathExists apk_path = false then
        [apkPrompt, .print (NEON_RED ++ "Not found: " ++ apk_path ++ RESET), pressEnter]
      else
        let cmd := adb_base ctx ++ ["install", "-r", apk_path]
        if ctx.dry_run then [apkPrompt, dryRunMsg cmd, pressEnter]
        else
          let outP := [Event.print (pyStrip (env.runOut cmd))]
          let errP := if pyStrip (env.runErr cmd) ≠ "" then
              [Event.print (GRAY ++ pyStrip (env.runErr cmd) ++ RESET)] else []
          [apkPrompt, .run cmd 300] ++ outP ++ errP ++ [pressEnter]

/-- Source `action_clear_app_data` (lines 393-409). -/
def action_clear_app_data (ctx : Ctx) (pkgInput : String) (env : Env) : List Event :=
  match ctx.serial with
  | none => requireSerialFail
  | some _ =>
    let pkgPrompt := Event.print "Package to clear (e.g. com.example.app): "
    let pkg := pyStrip pkgInput
    if pkg = "" then [pkgPrompt]
    else
      let cmd := adb_base ctx ++ ["shell", "pm", "clear", pkg]
      if ctx.dry_run then [pkgPrompt, dryRunMsg cmd, pressEnter]
      else
        let out := pyStrip (env.runOut cmd)
        [pkgPrompt, .run cmd 60, .print (if out ≠ "" then out else "(no output)"), pressEnter]

/-- Source `action_open_url` (lines 412-428). -/
def action_open_url (ctx : Ctx) (urlInput : String) (env : Env) : List Event :=
  match ctx.serial with
  | none => requireSerialFail
  | some _ =>
    let urlPrompt := Event.print "URL (https://...): "
    let url := pyStrip urlInput
    if url = "" then [urlPrompt]
    else
      let cmd := adb_base ctx
        ++ ["shell", "am", "start", "-a", "android.intent.action.VIEW", "-d", url]
      if ctx.dry_run then [urlPrompt, dryRunMsg cmd, pressEnter]
      else
        let out := pyStrip (env.runOut cmd)
        [urlPrompt, .run cmd 30, .print (if out ≠ "" then out else "(no output)"), pressEnter]

/-- The duration computation of `action_screenrecord` (lines 468-475):
strip the reply, default 15 on empty or unparsable input, clamp with
`max(1, min(duration, 180))`. -/
def screenrecord_duration (durInput : String) : Int :=
  let dur_s := pyStrip durInput
  let duration : Int :=
    if dur_s = "" then 15
    else match pyParseInt dur_s with
      | some n => n
      | none => 15
  max 1 (min duration 180)

/-! ## Main menu loop -/

/-- The two exception kinds `run_capture` can raise
(`subprocess.CalledProcessError` when `check=True` meets a non-zero exit,
`subprocess.TimeoutExpired` when the wall-clock bound elapses). -/
inductive PyExn where
  | calledProcessError (cmd : List String) (stdout stderr : String)
  | timeoutExpired
  deriving Repr, DecidableEq

/-- What one pass of the `while True` menu body does after reading the
choice: loop again, return from `menu` (quit), or die on an uncaught
exception. -/
inductive StepResult where
  | continueLoop
  | quit
  | fatal (e : PyExn)
  deriving Repr, DecidableEq

/-- The lines printed by the two `except` clauses shared by the v1.2 and ai
menus (`android_workbench_ai.py` lines 639-647, `android-workbench-v1.2.py`
lines 331-339; the two files differ only in clause order). -/
def exnPrints : PyExn → List String
  | .timeoutExpired => [NEON_RED ++ "Command timed out." ++ RESET]
  | .calledProcessError cmd out err =>
      [NEON_RED ++ "Command failed:" ++ RESET, joinWith " " cmd]
      ++ (if out ≠ "" then ["\nstdout:\n" ++ out] else [])
      ++ (if err ≠ "" then ["\nstderr:\n" ++ err] else [])

/-- One pass of the ai menu body (`android_workbench_ai.py` lines 553-649):
normalized choice, dry-run toggle, quit, then the `try` block dispatching to
an action handler. `exn` is the exception, if any, that the dispatched
child-process invocations of the dispatched action raise; the handlers receive
the context but never assign to its fields (the only `ctx.<field> =`
assignment in the file is the toggle on line 584), so the dispatch leaves
the context unchanged and its per-action events are kept in the separate
trace functions above. Returns the context for the next pass, the loop
outcome, and the lines printed by the `except` clauses. -/
def menu_step_ai (ctx : Ctx) (choice : String) (exn : Option PyExn) :
    Ctx × StepResult × List String :=
  let c := pyLower (pyStrip choice)
  if c = "d" then ({ ctx with dry_run := !ctx.dry_run }, .continueLoop, [])
  else if c = "q" then (ctx, .quit, [])
  else
    match exn with
    | none => (ctx, .continueLoop, [])
    | some e => (ctx, .continueLoop, exnPrints e)

/-- One pass of the v1.2 menu body (`android-workbench-v1.2.py` lines
288-341): same toggle/quit/`try`-dispatch structure as the ai menu. -/
def menu_step_v12 (ctx : Ctx) (choice : String) (exn : Option PyExn) :
    Ctx × StepResult × List String :=
  let c := pyLower (pyStrip choice)
  if c = "d" then ({ ctx with dry_run := !ctx.dry_run }, .continueLoop, [])
  else if c = "q" then (ctx, .quit, [])
  else
    match exn with
    | none => (ctx, .continueLoop, [])
    | some e => (ctx, .continueLoop, exnPrints e)

/-- One pass of the v0.1 menu body (`android_workbench.py` lines 180-217):
same choice handling, but the dispatch is NOT wrapped in any
`try`/`except`, so an exception raised inside an action propagates out of
`menu` and kills the process. -/
def menu_step_v01 (ctx : Ctx) (choice : String) (exn : Option PyExn) :
    Ctx × StepResult × List String :=
  let c := pyLower (pyStrip choice)
  if c = "d" then ({ ctx with dry_run := !ctx.dry_run }, .continueLoop, [])
  else if c = "q" then (ctx, .quit, [])
  else
    match exn with
    | none => (ctx, .continueLoop, [])
    | some e => (ctx, .fatal e, [])

/-- Iterating the ai menu body over a whole session: the context threaded
through a sequence of (choice, exception) pairs. -/
def run_menu_steps (ctx : Ctx) : List (String × Option PyExn) → Ctx
  | [] => ctx
  | (c, e) :: rest => run_menu_steps (menu_step_ai ctx c e).1 rest

/-! ## Helper lemmas: strings and lists -/

theorem strToList_append (a b : String) : (a ++ b).toList = a.toList ++ b.toList := rfl

theorem strMk_toList (s : String) : String.mk s.toList = s := rfl

theorem strToList_mk (cs : List Char) : (String.mk cs).toList = cs := rfl

theorem strLength_mk (cs : List Char) : (String.mk cs).length = cs.length := rfl

theorem length_pyLjust (s : String) (w : Nat) (f : Char) (h : s.length ≤ w) :
    (pyLjust s w f).length = w := by
  simp [pyLjust, String.length_append, strLength_mk]
  omega

theorem le_foldr_max (l : List Nat) (x : Nat) (hx : x ∈ l) : x ≤ l.foldr Nat.max 0 := by
  induction l with
  | nil => cases hx
  | cons a l ih =>
    rcases List.mem_cons.mp hx with h | h
    · subst h; exact Nat.le_max_left _ _
    · exact le_trans (ih h) (Nat.le_max_right _ _)

theorem label_le_boxWidth (lines : List String) (title : String) (s : String)
    (hs : s ∈ lines) : s.length ≤ boxWidth lines title := by
  unfold boxWidth
  split
  · rename_i h
    rw [h.1] at hs
    cases hs
  · exact le_foldr_max _ _ (List.mem_append_left _ (List.mem_map_of_mem _ hs))

theorem title_le_boxWidth (lines : List String) (title : String) (ht : title ≠ "") :
    title.length ≤ boxWidth lines title := by
  unfold boxWidth
  split
  · rename_i h
    exact absurd h.2 ht
  · exact le_foldr_max _ _ (List.mem_append_right _ (List.mem_singleton_self _))

theorem length_boxTop (lines : List String) (title : String) :
    (boxTop lines title).length = boxWidth lines title + 4 := by
  have hplus : "+".length = 1 := rfl
  by_cases h : title = ""
  · simp [boxTop, h, String.length_append, strLength_mk]
    omega
  · have h2 : (" " ++ title).length ≤ boxWidth lines title + 2 := by
      have hsp : " ".length = 1 := rfl
      rw [String.length_append]
      have := title_le_boxWidth lines title h
      omega
    simp [boxTop, h, String.length_append, length_pyLjust _ _ _ h2]
    omega

/-! ## C8 — menu renderer -/

/-- C8: for every ordered sequence of label strings and optional title, the
menu renderer yields a bordered block with `lines.length + 2` rows, every
row having the same length `boxWidth + 4` where `boxWidth` is the length of
the longest label or of the title; the inner rows are exactly the labels
left-justified into fixed-width rows; `box` is the newline-join of those
rows (a pure function); and empty input yields the minimal empty box. -/
theorem C8_box_renderer (lines : List String) (title : String) :
    (boxRows lines title).length = lines.length + 2
    ∧ (∀ r ∈ boxRows lines title, r.length = boxWidth lines title + 4)
    ∧ ((boxRows lines title).drop 1).dropLast
        = lines.map (fun s => "| " ++ pyLjust s (boxWidth lines title) ' ' ++ " |")
    ∧ box lines title = joinWith "\n" (boxRows lines title)
    ∧ box [] "" = "+--+\n+--+" := by
  refine ⟨by simp [boxRows], ?_, ?_, rfl, by decide⟩
  · intro r hr
    have hplus : "+".length = 1 := rfl
    have hbar : "| ".length = 2 := rfl
    have hbar2 : " |".length = 2 := rfl
    simp only [boxRows, List.mem_cons, List.mem_append, List.mem_map,
      List.mem_singleton] at hr
    rcases hr with h | ⟨s, hs, h⟩ | h | h
    rotate_right
    · cases h
    · subst h; exact length_boxTop lines title
    · subst h
      have hle := label_le_boxWidth lines title s hs
      simp [String.length_append, length_pyLjust _ _ _ hle]
      omega
    · subst h
      simp [String.length_append, strLength_mk]
      omega
  · simp [boxRows]

/-- Witness for C8: the label row of a concrete menu really is a member row
of the rendered box and has the common row width. -/
theorem C8_box_renderer_witness :
    "| ab |".length = boxWidth ["ab"] "t" + 4 :=
  (C8_box_renderer ["ab"] "t").2.1 "| ab |" (by decide)

/-! ## C7 — screen-recording duration -/

/-- C7: for every operator reply to the duration prompt the duration used
lies in `[1, 180]`; a numeric reply `n` is clamped to `max 1 (min n 180)`;
a non-numeric (or empty) reply falls back to the default 15. -/
theorem C7_screenrecord_duration (inp : String) :
    (1 ≤ screenrecord_duration inp ∧ screenrecord_duration inp ≤ 180)
    ∧ (∀ n : Int, pyParseInt (pyStrip inp) = some n →
        screenrecord_duration inp = max 1 (min n 180))
    ∧ (pyParseInt (pyStrip inp) = none → screenrecord_duration inp = 15) := by
  have hbounds : ∀ d : Int, 1 ≤ max 1 (min d 180) ∧ max 1 (min d 180) ≤ 180 := by
    intro d
    constructor
    · exact le_max_left _ _
    · exact max_le (by norm_num) (min_le_right _ _)
  refine ⟨hbounds _, ?_, ?_⟩
  · intro n h
    by_cases hs : pyStrip inp = ""
    · rw [hs] at h
      simp [pyParseInt, pyStripChars] at h
    · simp only [screenrecord_duration, hs, if_neg, ite_false, h]
  · intro h
    by_cases hs : pyStrip inp = ""
    · simp only [screenrecord_duration, hs, ite_true]
      norm_num
    · simp only [screenrecord_duration, hs, ite_false, h]
      norm_num

/-- Witness for C7: the reply `"200"` parses and is clamped to 180, and the
reply `"abc"` does not parse and falls back to 15. -/
theorem C7_screenrecord_duration_witness :
    screenrecord_duration "200" = max 1 (min (200 : Int) 180)
    ∧ screenrecord_duration "abc" = 15 :=
  ⟨(C7_screenrecord_duration "200").2.1 200 (by decide),
   (C7_screenrecord_duration "abc").2.2 (by decide)⟩

/-! ## C5 — device selection -/

/-- C5: with no qualifying device the selector returns no selection; with
exactly one it returns that device without consulting the operator (the
result is independent of the operator input); with two or more it returns
the identifier at 1-based index `k` exactly when the stripped reply is a
digit string whose value k lies between 1 and the device count, and no
selection otherwise. -/
theorem C5_pick_adb_serial (serials : List String) (inp : String) :
    (pick_adb_serial [] inp = none)
    ∧ (∀ s : String, pick_adb_serial [s] inp = some s)
    ∧ (serials.length ≤ 1 → ∀ inp2, pick_adb_serial serials inp = pick_adb_serial serials inp2)
    ∧ (2 ≤ serials.length →
        (∀ k : Nat, pyIsDigit (pyStrip inp) = true → digitsVal (pyStrip inp).toList = k →
          1 ≤ k → k ≤ serials.length →
          pick_adb_serial serials inp = serials.get? (k - 1))
        ∧ (¬(pyIsDigit (pyStrip inp) = true
              ∧ 1 ≤ digitsVal (pyStrip inp).toList
              ∧ digitsVal (pyStrip inp).toList ≤ serials.length) →
          pick_adb_serial serials inp = none)) := by
  refine ⟨rfl, fun s => rfl, ?_, ?_⟩
  · intro hlen inp2
    match serials, hlen with
    | [], _ => rfl
    | [s], _ => rfl
  · intro hlen
    have h0 : ¬(serials = []) := by
      intro h; rw [h] at hlen; simp at hlen
    have h1 : ¬(serials.length = 1) := by omega
    constructor
    · intro k hd hv h1k hkn
      simp only [pick_adb_serial, h0, h1, if_neg, ite_false, hd, ite_true, hv]
      rw [if_pos ⟨by omega, by omega⟩]
    · intro hbad
      by_cases hd : pyIsDigit (pyStrip inp) = true
      · have : ¬(1 ≤ digitsVal (pyStrip inp).toList
            ∧ digitsVal (pyStrip inp).toList ≤ serials.length) := by
          intro hc; exact hbad ⟨hd, hc⟩
        simp only [pick_adb_serial, h0, h1, if_neg, ite_false, hd, ite_true]
        rw [if_neg this]
      · simp only [pick_adb_serial, h0, h1, if_neg, ite_false,
          Bool.not_eq_true] at hd ⊢
        rw [hd]
        simp

/-- Witness for C5: three devices, reply `" 2 "` picks the second; reply
`"0"` and reply `"x"` pick nothing. -/
theorem C5_pick_adb_serial_witness :
    pick_adb_serial ["a", "b", "c"] " 2 " = ["a", "b", "c"].get? (2 - 1)
    ∧ pick_adb_serial ["a", "b", "c"] "0" = none
    ∧ pick_adb_serial ["a", "b", "c"] "x" = none :=
  ⟨((C5_pick_adb_serial ["a", "b", "c"] " 2 ").2.2.2 (by decide)).1 2
      (by decide) (by decide) (by decide) (by decide),
   ((C5_pick_adb_serial ["a", "b", "c"] "0").2.2.2 (by decide)).2 (by decide),
   ((C5_pick_adb_serial ["a", "b", "c"] "x").2.2.2 (by decide)).2 (by decide)⟩

/-! ## C9 — session-context frame property -/

theorem menu_step_ai_preserves (ctx : Ctx) (choice : String) (exn : Option PyExn) :
    (menu_step_ai ctx choice exn).1.serial = ctx.serial
    ∧ (menu_step_ai ctx choice exn).1.verbose = ctx.verbose := by
  unfold menu_step_ai
  by_cases hd : pyLower (pyStrip choice) = "d"
  · simp [hd]
  · by_cases hq : pyLower (pyStrip choice) = "q"
    · simp [hd, hq]
    · cases exn <;> simp [hd, hq]

/-- C9: across any sequence of menu passes the selected device identifier
and the verbosity flag keep their startup values, and a single pass changes
the context exactly when the choice is the dry-run toggle `d`, in which case
only the dry-run flag is flipped. -/
theorem C9_session_context_frame (ctx : Ctx) (steps : List (String × Option PyExn))
    (choice : String) (exn : Option PyExn) :
    ((run_menu_steps ctx steps).serial = ctx.serial
      ∧ (run_menu_steps ctx steps).verbose = ctx.verbose)
    ∧ (if pyLower (pyStrip choice) = "d"
        then (menu_step_ai ctx choice exn).1 = { ctx with dry_run := !ctx.dry_run }
        else (menu_step_ai ctx choice exn).1 = ctx) := by
  constructor
  · induction steps generalizing ctx with
    | nil => exact ⟨rfl, rfl⟩
    | cons p rest ih =>
      have hstep := menu_step_ai_preserves ctx p.1 p.2
      have hrest := ih (menu_step_ai ctx p.1 p.2).1
      simp only [run_menu_steps]
      exact ⟨hrest.1.trans hstep.1, hrest.2.trans hstep.2⟩
  · by_cases hd : pyLower (pyStrip choice) = "d"
    · simp [hd, menu_step_ai]
    · by_cases hq : pyLower (pyStrip choice) = "q"
      · simp [hd, hq, menu_step_ai]
      · cases exn <;> simp [hd, hq, menu_step_ai]

/-! ## C1 — dry-run in the logcat lab -/

/-- C1 (code bug): with the dry-run flag set, selecting logcat-lab sub-mode
`l1` still performs the capture-mode child-process invocation — the source
tests `ctx.dry_run` only after `out = run(cmd, timeout=60)` has executed —
and only then prints the would-be argument list. -/
theorem C1_dry_run_logcat_still_invokes :
    (Ctx.mk (some "ABC123") true true).dry_run = true
    ∧ (action_logcat_lab (Ctx.mk (some "ABC123") true true) "l1" "" "" "" env0).any
        Event.isRun = true
    ∧ Event.run ["adb", "-s", "ABC123", "logcat", "-b", "all", "-d", "-t", "200", "-v", "time"] 60
        ∈ action_logcat_lab (Ctx.mk (some "ABC123") true true) "l1" "" "" "" env0
    ∧ dryRunMsg ["adb", "-s", "ABC123", "logcat", "-b", "all", "-d", "-t", "200", "-v", "time"]
        ∈ action_logcat_lab (Ctx.mk (some "ABC123") true true) "l1" "" "" "" env0 := by
  decide

/-! ## C10 — empty free-text input aborts the handler -/

theorem normChoice_l5 : pyLower (pyStrip "l5") = "l5" := rfl

theorem normChoice_l6 : pyLower (pyStrip "l6") = "l6" := rfl

/-- C10: in each handler with a free-text prompt (logcat tag, regex
pattern, APK path, package name, URL), an operator reply that is empty
after stripping whitespace makes the handler return with no child-process
invocation and no file write. -/
theorem C10_empty_input_aborts (ctx : Ctx) (s : String) (env : Env)
    (tag regex apk pkg url : String) (hs : ctx.serial = some s) :
    (pyStrip tag = "" →
      (action_logcat_lab ctx "l5" tag regex "x" env).all (fun e => !e.isEffect) = true)
    ∧ (pyStrip regex = "" →
      (action_logcat_lab ctx "l6" tag regex "x" env).all (fun e => !e.isEffect) = true)
    ∧ (pyStrip apk = "" →
      (action_install_apk ctx apk env).all (fun e => !e.isEffect) = true)
    ∧ (pyStrip pkg = "" →
      (action_clear_app_data ctx pkg env).all (fun e => !e.isEffect) = true)
    ∧ (pyStrip url = "" →
      (action_open_url ctx url env).all (fun e => !e.isEffect) = true) := by
  refine ⟨?_, ?_, ?_, ?_, ?_⟩
  · intro h
    unfold action_logcat_lab
    rw [hs]
    simp only [normChoice_l5]
    simp [h]
    decide
  · intro h
    unfold action_logcat_lab
    rw [hs]
    simp only [normChoice_l6]
    simp [h]
    decide
  · intro h
    unfold action_install_apk
    rw [hs]
    simp [h]
    rfl
  · intro h
    unfold action_clear_app_data
    rw [hs]
    simp [h]
    rfl
  · intro h
    unfold action_open_url
    rw [hs]
    simp [h]
    rfl

/-- Witness for C10: all five prompts answered with whitespace at a
concrete bound device yield effect-free traces. -/
theorem C10_empty_input_aborts_witness :
    ((action_logcat_lab (Ctx.mk (some "ABC123") false true) "l5" " " " " "x" env0).all
        (fun e => !e.isEffect) = true)
    ∧ ((action_logcat_lab (Ctx.mk (some "ABC123") false true) "l6" " " " " "x" env0).all
        (fun e => !e.isEffect) = true)
    ∧ ((action_install_apk (Ctx.mk (some "ABC123") false true) " " env0).all
        (fun e => !e.isEffect) = true)
    ∧ ((action_clear_app_data (Ctx.mk (some "ABC123") false true) " " env0).all
        (fun e => !e.isEffect) = true)
    ∧ ((action_open_url (Ctx.mk (some "ABC123") false true) " " env0).all
        (fun e => !e.isEffect) = true) := by
  have h := C10_empty_input_aborts (Ctx.mk (some "ABC123") false true) "ABC123" env0
    " " " " " " " " " " rfl
  exact ⟨h.1 (by decide), h.2.1 (by decide), h.2.2.1 (by decide),
    h.2.2.2.1 (by decide), h.2.2.2.2 (by decide)⟩

/-! ## C2 — invalid regex in the log-filter sub-mode -/

/-- C2 (counterexample): at a concrete live session, sub-mode `l6` with the
invalid pattern `"("` still performs the remote capture invocation — the
source executes `out = run(cmd, timeout=60)` before `re.compile(regex_s)` —
and only afterwards reports the bad regex. This refutes "aborts before any
remote command is executed". -/
theorem C2_invalid_regex_counterexample :
    ((action_logcat_lab (Ctx.mk (some "ABC123") false true) "l6" "" "(" "x"
        { env0 with regexValid := false, regexErrMsg := "missing ), unterminated subpattern" }).any
      Event.isRun = true)
    ∧ (Event.print (NEON_RED ++ "Bad regex: " ++ "missing ), unterminated subpattern" ++ RESET)
        ∈ action_logcat_lab (Ctx.mk (some "ABC123") false true) "l6" "" "(" "x"
          { env0 with regexValid := false, regexErrMsg := "missing ), unterminated subpattern" }) := by
  decide

/-- C2 (amended): an invalid pattern is reported and the sub-mode returns
with no file written and no log output printed, but only after the remote
dump command has executed exactly once — the capture happens before the
pattern is validated. The whole trace is pinned down. -/
theorem C2_invalid_regex_amended (serial regexInput : String) (env : Env)
    (hv : env.regexValid = false) (hne : pyStrip regexInput ≠ "") :
    action_logcat_lab (Ctx.mk (some serial) false true) "l6" "" regexInput "x" env
      = logcatMenuPrints
        ++ [Event.print "Regex: ",
            .run ["adb", "-s", serial, "logcat", "-b", "all", "-d", "-v", "time"] 60,
            .print (NEON_RED ++ "Bad regex: " ++ env.regexErrMsg ++ RESET), pressEnter]
    ∧ (action_logcat_lab (Ctx.mk (some serial) false true) "l6" "" regexInput "x" env).all
        (fun e => !e.isWrite) = true := by
  have htr : action_logcat_lab (Ctx.mk (some serial) false true) "l6" "" regexInput "x" env
      = logcatMenuPrints
        ++ [Event.print "Regex: ",
            .run ["adb", "-s", serial, "logcat", "-b", "all", "-d", "-v", "time"] 60,
            .print (NEON_RED ++ "Bad regex: " ++ env.regexErrMsg ++ RESET), pressEnter] := by
    unfold action_logcat_lab
    simp only [normChoice_l6]
    simp [hne, hv, adb_base]
  refine ⟨htr, ?_⟩
  rw [htr]
  simp [logcatMenuPrints, pressEnter, Event.isWrite]

/-- Witness for the amended C2 at the concrete invalid pattern `"("`. -/
theorem C2_invalid_regex_amended_witness :
    action_logcat_lab (Ctx.mk (some "ABC123") false true) "l6" "" "(" "x"
        { env0 with regexValid := false }
      = logcatMenuPrints
        ++ [Event.print "Regex: ",
            .run ["adb", "-s", "ABC123", "logcat", "-b", "all", "-d", "-v", "time"] 60,
            .print (NEON_RED ++ "Bad regex: "
              ++ ({ env0 with regexValid := false } : Env).regexErrMsg ++ RESET), pressEnter] :=
  (C2_invalid_regex_amended "ABC123" "(" { env0 with regexValid := false } rfl (by decide)).1

/-! ## C3 — loop-level error recovery -/

/-- C3 (counterexample): in `android_workbench.py` the menu body has no
`try`/`except`, so a timeout raised inside the dispatched action (here:
choice `1`, Status) propagates out of the loop and is fatal to the process. -/
theorem C3_uncaught_error_counterexample :
    menu_step_v01 (Ctx.mk (some "ABC123") false true) "1" (some .timeoutExpired)
      = (Ctx.mk (some "ABC123") false true, .fatal .timeoutExpired, []) := by
  decide

/-- C3 (amended): in the v1.2 and ai menus every action error (non-zero
child exit under `check=True`, or timeout) is caught by the loop, printed,
and the loop continues with the context unchanged — no retry, no
propagation; in the v0.1 menu (`android_workbench.py`) the same error is
uncaught and fatal. -/
theorem C3_errors_caught_amended (ctx : Ctx) (choice : String) (e : PyExn)
    (hd : pyLower (pyStrip choice) ≠ "d") (hq : pyLower (pyStrip choice) ≠ "q") :
    ((menu_step_v12 ctx choice (some e)).2.1 = .continueLoop
      ∧ (menu_step_v12 ctx choice (some e)).1 = ctx
      ∧ (menu_step_v12 ctx choice (some e)).2.2 = exnPrints e)
    ∧ ((menu_step_ai ctx choice (some e)).2.1 = .continueLoop
      ∧ (menu_step_ai ctx choice (some e)).1 = ctx
      ∧ (menu_step_ai ctx choice (some e)).2.2 = exnPrints e)
    ∧ exnPrints e ≠ []
    ∧ (menu_step_v01 ctx choice (some e)).2.1 = .fatal e := by
  refine ⟨?_, ?_, ?_, ?_⟩
  · unfold menu_step_v12
    simp [hd, hq]
  · unfold menu_step_ai
    simp [hd, hq]
  · cases e <;> simp [exnPrints]
  · unfold menu_step_v01
    simp [hd, hq]

/-- Witness for the amended C3 at choice `1` and a timeout error. -/
theorem C3_errors_caught_amended_witness :
    (menu_step_v12 (Ctx.mk (some "ABC123") false true) "1" (some .timeoutExpired)).2.1
        = .continueLoop
    ∧ (menu_step_ai (Ctx.mk (some "ABC123") false true) "1" (some .timeoutExpired)).2.2
        = exnPrints .timeoutExpired :=
  ⟨(C3_errors_caught_amended (Ctx.mk (some "ABC123") false true) "1" .timeoutExpired
      (by decide) (by decide)).1.1,
   (C3_errors_caught_amended (Ctx.mk (some "ABC123") false true) "1" .timeoutExpired
      (by decide) (by decide)).2.1.2.2⟩

/-! ## Substring lemmas for C6 -/

theorem startsWithList_self_append (p r : List Char) :
    startsWithList (p ++ r) p = true := by
  induction p with
  | nil => cases r <;> rfl
  | cons c cs ih => simp [startsWithList, ih]

theorem listContains_self_append (p r : List Char) :
    listContains (p ++ r) p = true := by
  cases p with
  | nil => cases r <;> rfl
  | cons d ds =>
    simp only [List.cons_append, listContains]
    have := startsWithList_self_append (d :: ds) r
    simp only [List.cons_append] at this
    rw [List.append_eq, this]
    simp

theorem listContains_cons_of (c : Char) (l p : List Char)
    (h : listContains l p = true) : listContains (c :: l) p = true := by
  cases p with
  | nil => rfl
  | cons d ds =>
    simp only [listContains]
    rw [h]
    simp

theorem listContains_append_of (x l p : List Char)
    (h : listContains l p = true) : listContains (x ++ l) p = true := by
  induction x with
  | nil => exact h
  | cons c cs ih => exact listContains_cons_of c _ p ih

/-! ## C6 — property report file -/

/-- C6 (counterexample): at a concrete bound device the property report
writes exactly one file, but its content does NOT include the queried
property key `ro.product.model` — the file holds short labels
(`model:`, `android:`, ...) followed by the query results, never the key
strings themselves. This refutes "content includes every queried property
key". -/
theorem C6_report_keys_counterexample :
    ((action_report (Ctx.mk (some "ABC123") false true) env0).filterMap
        Event.writeOf).length = 1
    ∧ ((action_report (Ctx.mk (some "ABC123") false true) env0).filterMap
        Event.writeOf).all (fun pc => !strContains pc.2 "ro.product.model") = true := by
  decide

/-- C6 (amended): with a bound device the property report writes exactly
one file; its path lies under the reports directory and contains the device
identifier and the timestamp; and its content includes a labelled line for
every queried property (`model: `, `android: `, `security_patch: `,
`fingerprint: `, `abi: `) — though not the raw property key strings. -/
theorem C6_report_amended (serial : String) (env : Env) (dr vb : Bool) :
    ((action_report (Ctx.mk (some serial) dr vb) env).filterMap Event.writeOf).length = 1
    ∧ ∀ pc ∈ (action_report (Ctx.mk (some serial) dr vb) env).filterMap Event.writeOf,
        strContains pc.1 REPORT_DIR = true
        ∧ strContains pc.1 serial = true
        ∧ strContains pc.1 env.ts = true
        ∧ strContains pc.2 "model: " = true
        ∧ strContains pc.2 "android: " = true
        ∧ strContains pc.2 "security_patch: " = true
        ∧ strContains pc.2 "fingerprint: " = true
        ∧ strContains pc.2 "abi: " = true := by
  constructor
  · simp [action_report, Event.writeOf]
  · intro pc hpc
    simp only [action_report, List.filterMap_cons, Event.writeOf] at hpc
    simp at hpc
    subst hpc
    refine ⟨?_, ?_, ?_, ?_, ?_, ?_, ?_, ?_⟩ <;>
    · unfold strContains
      simp only [joinWith, strToList_append, List.append_assoc]
      repeat first
      | exact listContains_self_append _ _
      | apply listContains_append_of

/-- Witness for the amended C6 at a concrete device and environment. -/
theorem C6_report_amended_witness :
    ((action_report (Ctx.mk (some "ABC123") false true) env0).filterMap
        Event.writeOf).length = 1
    ∧ strContains "~/scripts/android-reports/report-ABC123-20250101-000000.txt"
        "ABC123" = true :=
  ⟨(C6_report_amended "ABC123" env0 false true).1,
   ((C6_report_amended "ABC123" env0 false true).2
      ("~/scripts/android-reports/report-ABC123-20250101-000000.txt",
       "serial: ABC123\nwhen: 2025-01-01T00:00:00\n\nmodel: \nandroid: \nsecurity_patch: \nfingerprint: \nabi: \n\nid:\n\n")
      (by decide)).2.1⟩

/-! ## Lemmas for C4 — device-list parsing -/

theorem splitlines_joinLines (ls : List String)
    (h : ∀ l ∈ ls, ('\n' : Char) ∉ l.toList) (hne : ls ≠ []) :
    (joinLines ls).toList.splitOn '\n' = ls.map String.toList := by
  induction ls with
  | nil => exact absurd rfl hne
  | cons a ls ih =>
    cases ls with
    | nil =>
      simp only [joinLines, joinWith, List.map_cons, List.map_nil]
      rw [List.splitOn]
      apply List.splitOnP_eq_single
      intro x hx hbeq
      exact (h a (by simp)) (beq_iff_eq.mp hbeq ▸ hx)
    | cons b t =>
      have hj : (joinLines (a :: b :: t)).toList
          = a.toList ++ '\n' :: (joinLines (b :: t)).toList := by
        show ((a ++ "\n") ++ joinWith "\n" (b :: t)).toList = _
        rw [strToList_append, strToList_append, List.append_assoc]
        rfl
      have ha : ∀ x ∈ a.toList, ¬((x == '\n') = true) := by
        intro x hx hbeq
        exact (h a (by simp)) (beq_iff_eq.mp hbeq ▸ hx)
      rw [hj, List.splitOn,
        List.splitOnP_first _ a.toList ha '\n' (by simp) ((joinLines (b :: t)).toList)]
      have ih2 := ih (fun l hl => h l (List.mem_cons_of_mem a hl)) (by simp)
      rw [List.splitOn] at ih2
      rw [ih2]
      simp

theorem wordsChars_dropWhile (p : Char → Bool) (cs : List Char) :
    ((cs.dropWhile p).splitOnP p).filter (fun w => w ≠ [])
      = (cs.splitOnP p).filter (fun w => w ≠ []) := by
  induction cs with
  | nil => rfl
  | cons c cs ih =>
    cases hp : p c with
    | true =>
      rw [List.dropWhile_cons, if_pos hp, List.splitOnP_cons, if_pos hp, ih]
      simp
    | false =>
      rw [List.dropWhile_cons, if_neg (by simp [hp])]

theorem splitOnP_append_sep (p : Char → Bool) (cs : List Char) (c : Char)
    (hp : p c = true) :
    (cs ++ [c]).splitOnP p = cs.splitOnP p ++ [[]] := by
  induction cs with
  | nil => simp [List.splitOnP_cons, hp, List.splitOnP_nil]
  | cons x cs ih =>
    rw [List.cons_append, List.splitOnP_cons, List.splitOnP_cons, ih]
    cases hx : p x with
    | true => simp
    | false =>
      simp only [hx, Bool.false_eq_true, if_false]
      obtain ⟨g, gs, hg⟩ := List.exists_cons_of_ne_nil (List.splitOnP_ne_nil p cs)
      rw [hg]
      simp [List.modifyHead]

theorem wordsChars_dropTrailing (p : Char → Bool) (cs : List Char) :
    ((cs.reverse.dropWhile p).reverse.splitOnP p).filter (fun w => w ≠ [])
      = (cs.splitOnP p).filter (fun w => w ≠ []) := by
  induction cs using List.reverseRecOn with
  | nil => rfl
  | append_singleton cs c ih =>
    cases hp : p c with
    | false =>
      have h2 : ((cs ++ [c]).reverse.dropWhile p).reverse = cs ++ [c] := by
        simp [List.reverse_append, List.dropWhile_cons, hp]
      rw [h2]
    | true =>
      have h2 : ((cs ++ [c]).reverse.dropWhile p).reverse
          = (cs.reverse.dropWhile p).reverse := by
        simp [List.reverse_append, List.dropWhile_cons, hp]
      rw [h2, ih, splitOnP_append_sep p cs c hp]
      simp

theorem pyWords_strip (s : String) : pyWords (pyStrip s) = pyWords s := by
  show (((pyStripChars s.toList).splitOnP isPySpace).filter (fun w => w ≠ [])).map String.mk
      = pyWords s
  unfold pyStripChars
  rw [wordsChars_dropTrailing, wordsChars_dropWhile]
  rfl

theorem filter_map_dropTrailingBlank (gs : List String) :
    ((dropTrailingBlank gs).map pyStrip).filter (fun ln => ln ≠ "")
      = (gs.map pyStrip).filter (fun ln => ln ≠ "") := by
  unfold dropTrailingBlank
  by_cases h : gs.getLastD "x" = ""
  · rw [if_pos h]
    rcases List.eq_nil_or_concat gs with rfl | ⟨init, last, hg⟩
    · simp at h
    · rw [List.concat_eq_append] at hg
      subst hg
      have hlast : last = "" := by
        rw [List.getLastD_concat] at h
        exact h
      subst hlast
      rw [List.dropLast_concat]
      have hstrip : pyStrip "" = "" := rfl
      simp [List.filter_append, hstrip]
  · rw [if_neg h]

theorem pySplitlines_joinLines (ls : List String)
    (h : ∀ l ∈ ls, ('\n' : Char) ∉ l.toList) (hne : ls ≠ []) :
    pySplitlines (joinLines ls) = dropTrailingBlank ls := by
  unfold pySplitlines
  rw [splitlines_joinLines ls h hne]
  congr 1
  rw [List.map_map]
  have hid : String.mk ∘ String.toList = id := funext (fun s => rfl)
  rw [hid, List.map_id]

theorem filterMap_strip_tokens (l : List String) :
    ((l.map pyStrip).filter (fun ln => ln ≠ "")).filterMap deviceTokenOf
      = l.filterMap deviceTokenOf := by
  induction l with
  | nil => rfl
  | cons a l ih =>
    have htok : deviceTokenOf (pyStrip a) = deviceTokenOf a := by
      unfold deviceTokenOf
      rw [pyWords_strip]
    by_cases ha : pyStrip a = ""
    · have hw : pyWords a = [] := by
        rw [← pyWords_strip, ha]
        rfl
      have hnone : deviceTokenOf a = none := by
        unfold deviceTokenOf
        rw [hw]
      rw [List.map_cons, List.filter_cons, if_neg (by simp [ha]), ih,
        List.filterMap_cons, hnone]
    · rw [List.map_cons, List.filter_cons, if_pos (by simp [ha]), List.filterMap_cons,
        List.filterMap_cons, htok, ih]

/-! ## C4 — the device-list parser -/

/-- C4: for every device-list output consisting of a (non-blank) header
line followed by further lines, the parser returns exactly the first
whitespace-separated token of each line whose second token equals the
literal `device`, in order. The concrete two-line instance of the claim is
checked in the witness. -/
theorem C4_parse_adb_devices (header : String) (rest : List String)
    (hhdr : pyStrip header ≠ "")
    (hnl : ∀ l ∈ header :: rest, ('\n' : Char) ∉ l.toList) :
    parse_adb_devices (joinLines (header :: rest)) = rest.filterMap deviceTokenOf := by
  show (((((pySplitlines (joinLines (header :: rest))).map pyStrip).filter
      (fun ln => ln ≠ "")).drop 1).filterMap deviceTokenOf) = rest.filterMap deviceTokenOf
  rw [pySplitlines_joinLines _ hnl (by simp), filter_map_dropTrailingBlank,
    List.map_cons, List.filter_cons, if_pos (by simpa using hhdr)]
  rw [List.drop_one, List.tail_cons]
  exact filterMap_strip_tokens rest

/-- Witness for C4: the concrete instance given in the claim — header
`List of devices attached` and line `ABC123<TAB>device<TAB>usb:1-1` yield
exactly `["ABC123"]`. -/
theorem C4_parse_adb_devices_witness :
    parse_adb_devices (joinLines ["List of devices attached", "ABC123\tdevice\tusb:1-1"])
      = ["ABC123"] := by
  rw [C4_parse_adb_devices "List of devices attached" ["ABC123\tdevice\tusb:1-1"]
    (by decide) (by decide)]
  decide
